import Mathlib

/-!
Shallow embedding of the WebSpocket WebSocket client for verification of
its specification. The embedded sources are
src/classes/WebSpocketClient.ts, src/classes/FrameGenerator.ts and
src/enums.ts.

Modelling conventions. Byte values held in `Uint8Array`s are `Nat`s below
256. The 32-bit JavaScript operators `<<`, `>>`, `&`, `|`, which ECMAScript
applies after a ToInt32 conversion, are modelled on `Int` with an explicit
wrap at 2 ^ 32 and with shift counts reduced mod 32, exactly as the
language prescribes; where the source applies `&`, `|` or `>>` to values
that are certainly bytes (reads from a `Uint8Array`), the plain `Nat`
operators coincide with the 32-bit ones and are used directly. Strings are
carried as `List Char`; payload strings are carried as their UTF-8 bytes.
External effects (the transport, the user callbacks) are reified as a list
of `Act` values, and the random masking keys drawn from
`crypto.getRandomValues` are abstracted as explicit `key` parameters.
-/

namespace WebSpocket

/-- ECMAScript ToUint32: the unsigned 32-bit value of an integer. -/
def u32ofInt (v : Int) : Nat := (v % (2 ^ 32 : Int)).toNat

/-- ECMAScript ToInt32 of an unsigned value: reinterpret the low 32 bits
as a signed number. -/
def s32 (n : Nat) : Int :=
  if n % 2 ^ 32 < 2 ^ 31 then ((n % 2 ^ 32 : Nat) : Int)
  else ((n % 2 ^ 32 : Nat) : Int) - 2 ^ 32

/-- ECMAScript ToInt32 on an integer. -/
def toInt32 (v : Int) : Int := s32 (u32ofInt v)

/-- JavaScript `a << s`: 32-bit shift left, shift count taken mod 32. -/
def jsShl (a : Int) (s : Nat) : Int := s32 (u32ofInt a * 2 ^ (s % 32))

/-- JavaScript `a >> s`: 32-bit arithmetic shift right (floor division of
the signed reading), shift count taken mod 32. -/
def jsShr (a : Int) (s : Nat) : Int := Int.fdiv (toInt32 a) (2 ^ (s % 32))

/-- JavaScript `a & b` on 32-bit values. -/
def jsAnd (a b : Int) : Int := s32 (u32ofInt a &&& u32ofInt b)

/-- JavaScript `a | b` on 32-bit values. -/
def jsOr (a b : Int) : Int := s32 (u32ofInt a ||| u32ofInt b)

/-- JavaScript `v & 0xff` as a byte value. -/
def jsByte (v : Int) : Nat := (jsAnd v 255).toNat

/-- The ReadyState enumeration of src/enums.ts (`opened` stands for its
`OPEN` member, which is a reserved word here). -/
inductive ReadyState where
  | connecting
  | opened
  | closing
  | closed
  | connected
  deriving DecidableEq

/-- The DataTypes enumeration of src/enums.ts. -/
inductive DataTypes where
  | text
  | binary
  deriving DecidableEq

/-- ErrorTypes.PROTOCOL_ERROR of src/enums.ts. -/
def PROTOCOL_ERROR : Nat := 1002

/-- ErrorTypes.INVALID_OPCODE of src/enums.ts. -/
def INVALID_OPCODE : Nat := 1003

/-- ErrorTypes.INTERNAL_ERROR of src/enums.ts. -/
def INTERNAL_ERROR : Nat := 1011

/-- The observable part of a WebSpocketClient: its readyState and whether
it currently owns a transport connection. -/
structure Session where
  state : ReadyState
  conn : Bool
  deriving DecidableEq

/-- The observable actions of the client: bytes written to the transport,
closing of the transport, and invocations of the user callbacks. For a
text message the source hands `onMessage` the UTF-8 decoding of the
payload; the payload bytes themselves are carried here. -/
inductive Act where
  | writeBytes (frame : List Nat)
  | connClose
  | onMessage (kind : DataTypes) (payload : List Nat)
  | onCloseCb (code : Int)
  deriving DecidableEq

/-- TypedArray.prototype.set: overwrite `src.length` entries of `l`
starting at index `start`. All uses in the source stay within bounds. -/
def setRange (l : List Nat) (start : Nat) (src : List Nat) : List Nat :=
  l.take start ++ src ++ l.drop (start + src.length)

/-- Reading `buffer[i]` from a `Uint8Array`: an out-of-range or negative
index yields `undefined`, which every arithmetic use in the source
coerces to 0 via ToInt32. -/
def byteAt (buffer : List Nat) (i : Int) : Nat :=
  if i < 0 then 0 else buffer.getD i.toNat 0

/-- The clamped relative index used by TypedArray.prototype.subarray. -/
def relIndex (len : Nat) (x : Int) : Nat :=
  if x < 0 then (max ((len : Int) + x) 0).toNat else min x.toNat len

/-- TypedArray.prototype.subarray: the elements of `buffer` in the
(clamped) index range [b, e). -/
def subarray (buffer : List Nat) (b e : Int) : List Nat :=
  (buffer.take (relIndex buffer.length e)).drop (relIndex buffer.length b)

/-- The in-place masking loop of FrameGenerator,
`data[i] ^= maskingKey[i % 4]`, starting at index `i`. -/
def maskData (key : List Nat) : Nat → List Nat → List Nat
  | _, [] => []
  | i, b :: rest => (b ^^^ key.getD (i % 4) 0) :: maskData key (i + 1) rest

/-- The number of extended payload-length bytes chosen by FrameGenerator:
0 when the payload fits in 7 bits, 2 up to 65535, 8 beyond. -/
def payloadLenBytesOf (payloadLen : Nat) : Nat :=
  if payloadLen > 125 then (if payloadLen ≤ 65535 then 2 else 8) else 0

/-- Header bytes from index 1 on, as written by FrameGenerator before the
masking key is stored: the mask bit comes from the RAW constructor
parameter (`masked ? 0x80 : 0x00`), which is truthy only when the argument
is literally `true`. The eight extended-length bytes are the unrolled loop
`header[2 + i] = (payloadLen >> ((7 - i) * 8)) & 0xff` with JavaScript
32-bit shift semantics (shift counts reduced mod 32). -/
def lenHeaderBytes (maskedRaw : Bool) (payloadLen : Nat) : List Nat :=
  let m : Nat := if maskedRaw then 128 else 0
  if payloadLen ≤ 125 then [(m ||| payloadLen) % 256]
  else if payloadLen ≤ 65535 then
    [m ||| 126, (payloadLen >>> 8) &&& 255, payloadLen &&& 255]
  else
    [m ||| 127,
      jsByte (jsShr (Int.ofNat payloadLen) 56), jsByte (jsShr (Int.ofNat payloadLen) 48),
      jsByte (jsShr (Int.ofNat payloadLen) 40), jsByte (jsShr (Int.ofNat payloadLen) 32),
      jsByte (jsShr (Int.ofNat payloadLen) 24), jsByte (jsShr (Int.ofNat payloadLen) 16),
      jsByte (jsShr (Int.ofNat payloadLen) 8), jsByte (jsShr (Int.ofNat payloadLen) 0)]

/-- The header array of FrameGenerator after all its indexed writes: a
zero array of size `headerLen + payloadLenBytes` where `headerLen` is 6
when the PRIVATE `masked` field is set and 2 otherwise, then
`header[0] = 0x80 | opcode`, then the length field from index 1, and
finally, when the private field is set, the 4-byte masking key written at
`headerLen - 4 = 2` (overwriting any extended-length bytes there). -/
def headerOf (opcode payloadLen : Nat) (maskedRaw maskedField : Bool) (key : List Nat) :
    List Nat :=
  let headerLen := if maskedField then 6 else 2
  let h0 := List.replicate (headerLen + payloadLenBytesOf payloadLen) 0
  let h1 := setRange h0 0 [(128 ||| opcode) % 256]
  let h2 := setRange h1 1 (lenHeaderBytes maskedRaw payloadLen)
  if maskedField then setRange h2 (headerLen - 4) key else h2

/-- FrameGenerator of src/classes/FrameGenerator.ts. `maskedParam` is the
optional constructor argument; the private `masked` field defaults to
`true` and is reassigned only when the argument is present (so `none`
leaves it `true` and `some b` makes it `b`). The random 4-byte masking key
drawn from crypto.getRandomValues is abstracted as the parameter `key`.
The payload is XOR-masked only under `masked && maskingKey`, that is, only
when the RAW argument is truthy. -/
def frameGenerator (opcode : Nat) (data : List Nat) (maskedParam : Option Bool)
    (key : List Nat) : List Nat :=
  let maskedField := maskedParam.getD true
  let maskedRaw := maskedParam == some true
  let header := headerOf opcode data.length maskedRaw maskedField key
  header ++ (if maskedRaw then maskData key 0 data else data)

/-- The 2-byte big-endian close-code payload built in close():
`errorTypeBytes[0] = (errorType >> 8) & 0xFF;
errorTypeBytes[1] = errorType & 0xFF`. -/
def errBytes (code : Nat) : List Nat :=
  [jsByte (jsShr (Int.ofNat code) 8), jsByte (Int.ofNat code)]

/-- close(errorType) of WebSpocketClient, observed after the close-frame
write completes: a no-op when the state is already CLOSED or CLOSING;
otherwise the state is set to CLOSING and, when a connection is owned, a
masked Close frame (opcode 0x8) carrying the code is written, after which
the transport is closed, the state becomes CLOSED and the connection
reference is dropped. The close() method never invokes the `onClose`
callback (that happens only on receipt of a Close frame). -/
def close (key : List Nat) (code : Nat) (s : Session) : List Act × Session :=
  if s.state ≠ ReadyState.closed ∧ s.state ≠ ReadyState.closing then
    if s.conn then
      ([Act.writeBytes (frameGenerator 8 (errBytes code) (some true) key), Act.connClose],
        { state := ReadyState.closed, conn := false })
    else ([], { s with state := ReadyState.closing })
  else ([], s)

/-- The big-endian combination `(data[0] << 8) | data[1]` computed for a
Close frame; out-of-range reads give `undefined`, which ToInt32 coerces
to 0. -/
def closeCode (data : List Nat) : Int :=
  jsOr (jsShl (Int.ofNat (data.getD 0 0)) 8) (Int.ofNat (data.getD 1 0))

/-- handleFrame(opcode, data) of WebSpocketClient: text and binary frames
go to `onMessage`; a Ping (0x9) is answered by writing one masked Pong
frame (opcode 0xA) echoing the payload; a Close (0x8) sets the state to
CLOSED and invokes `onClose` with the extracted code; any other opcode
falls to the default branch, close(INVALID_OPCODE). -/
def handleFrame (key : List Nat) (opcode : Nat) (data : List Nat) (s : Session) :
    List Act × Session :=
  if opcode = 1 then ([Act.onMessage DataTypes.text data], s)
  else if opcode = 2 then ([Act.onMessage DataTypes.binary data], s)
  else if opcode = 9 then ([Act.writeBytes (frameGenerator 10 data (some true) key)], s)
  else if opcode = 8 then
    ([Act.onCloseCb (closeCode data)], { s with state := ReadyState.closed })
  else close key INVALID_OPCODE s

/-- send(data) of WebSpocketClient, observed after the frame write
completes. `data` is carried as its UTF-8 bytes (the empty string, falsy
under `!data`, corresponds to `[]`); the emptiness test sits inside the
state guard and runs before any state change. While the write is in
flight the state is OPEN; completion sets it back to CONNECTED. -/
def send (key : List Nat) (dataBytes : List Nat) (s : Session) : List Act × Session :=
  if s.state = ReadyState.opened ∨ s.state = ReadyState.connected then
    if dataBytes = [] then ([], s)
    else ([Act.writeBytes (frameGenerator 1 dataBytes (some true) key)],
      { s with state := ReadyState.connected })
  else ([], s)

/-- The 8-byte extended-length read of listenForFrames:
`longPayloadLen = (longPayloadLen << 8) | buffer[offset + i]` for
i = 0..7, with JavaScript 32-bit semantics. -/
def readLong (buffer : List Nat) (offset : Int) : Int :=
  (List.range 8).foldl
    (fun l i => jsOr (jsShl l 8) (Int.ofNat (byteAt buffer (offset + (i : Int))))) 0

/-- The payload-length extension step of listenForFrames: from the low 7
bits of header byte 1, the payload length and the offset advanced past
any extended length bytes. -/
def decodeLen (buffer : List Nat) (offset : Int) (pl7 : Nat) : Int × Int :=
  if pl7 = 126 then
    (jsOr (jsShl (Int.ofNat (byteAt buffer offset)) 8) (Int.ofNat (byteAt buffer (offset + 1))),
      offset + 2)
  else if pl7 = 127 then (readLong buffer offset, offset + 8)
  else ((pl7 : Int), offset)

/-- The frame-decoding loop of listenForFrames over one received buffer.
`dataLen` is the length of the UTF-8-decoded, trimmed string `data` that
bounds the loop in the source (`while (offset < data.length)`) and is a
parameter here. `msgBuf` is the `messageBuffer` of pending fragment
payloads; a fin=1 frame arriving with pending fragments dispatches
`handleFrame` on the CURRENT frame's opcode with the concatenation of the
pending payloads. The concatenation helper `concatenateUint8Arrays` is not
among the sources; modelled from the spec: concatenate the whole sequence
in order into one buffer, which is `List.join`. A masked frame triggers
close(PROTOCOL_ERROR) and stops decoding (`break`). The recursion is
fuelled; each application instantiates sufficient fuel (the loop advances
the offset by at least 2 per iteration). -/
def listenForFrames (key buffer : List Nat) (dataLen : Int) :
    Nat → Int → List (List Nat) → Session → List Act × Session
  | 0, _, _, s => ([], s)
  | fuel + 1, offset, msgBuf, s =>
    if offset < dataLen then
      let fin := (byteAt buffer offset &&& 128) >>> 7
      let opcode := byteAt buffer offset &&& 15
      let mask := (byteAt buffer (offset + 1) &&& 128) >>> 7
      if mask ≠ 0 then close key PROTOCOL_ERROR s
      else
        let pl := decodeLen buffer (offset + 2) (byteAt buffer (offset + 1) &&& 127)
        let payload := subarray buffer pl.2 (pl.2 + pl.1)
        if fin ≠ 0 then
          if msgBuf ≠ [] then
            let r₁ := handleFrame key opcode ((msgBuf ++ [payload]).flatten) s
            let r₂ := listenForFrames key buffer dataLen fuel (pl.2 + pl.1) [] r₁.2
            (r₁.1 ++ r₂.1, r₂.2)
          else
            let r₁ := handleFrame key opcode payload s
            let r₂ := listenForFrames key buffer dataLen fuel (pl.2 + pl.1) msgBuf r₁.2
            (r₁.1 ++ r₂.1, r₂.2)
        else listenForFrames key buffer dataLen fuel (pl.2 + pl.1) (msgBuf ++ [payload]) s
    else ([], s)

/-- The constructor of WebSpocketClient: `readyState` is set to CLOSED,
the options are stored, and then the URL protocol is checked; a protocol
other than ws:/wss: throws, so a session is returned only on success.
URL parsing itself is an external collaborator; only the parsed protocol
matters here. -/
def construct (protocol : List Char) : Option Session :=
  if protocol == "ws:".data || protocol == "wss:".data then
    some { state := ReadyState.closed, conn := false }
  else none

/-- The first statement of connect():
`this.readyState = ReadyState.CONNECTING`. -/
def connectEntry (s : Session) : Session := { s with state := ReadyState.connecting }

/-- JavaScript String.prototype.startsWith on character lists. -/
def startsWithChars : List Char → List Char → Bool
  | [], _ => true
  | _ :: _, [] => false
  | p :: ps, c :: cs => p == c && startsWithChars ps cs

/-- JavaScript String.prototype.split with a non-empty separator, on
character lists; the fuel is the string length, and at least one
character is consumed per step. -/
def splitChars (sep : List Char) : Nat → List Char → List Char → List (List Char)
  | 0, rest, acc => [acc.reverse ++ rest]
  | _ + 1, [], acc => [acc.reverse]
  | fuel + 1, c :: rest, acc =>
    if startsWithChars sep (c :: rest) then
      acc.reverse :: splitChars sep fuel (rest.drop (sep.length - 1)) []
    else splitChars sep fuel rest (c :: acc)

/-- JavaScript `string.split(sep)` for the non-empty separators the
source uses. -/
def jsSplit (sep l : List Char) : List (List Char) := splitChars sep l.length l []

/-- The JavaScript whitespace characters relevant to
String.prototype.trim on the inputs considered here. -/
def isJsSpace (c : Char) : Bool :=
  c == ' ' || c == '\t' || c == '\n' || c == '\r'

/-- JavaScript String.prototype.trim on character lists. -/
def jsTrim (l : List Char) : List Char :=
  ((l.dropWhile isJsSpace).reverse.dropWhile isJsSpace).reverse

/-- The `checks` array of connect(). In the source it is declared EMPTY
(`const checks: boolean[] = []`) and entries 0 to 3 are individually
assigned `true` when the corresponding condition holds; an entry never
assigned remains a hole, modelled as `none`. -/
structure Checks where
  c0 : Option Bool
  c1 : Option Bool
  c2 : Option Bool
  c3 : Option Bool
  deriving DecidableEq

/-- One iteration of connect()'s response-validation loop over one header
line. `expectedAccept` abstracts base64(SHA-1(key ++ GUID)) computed
through the external WebCrypto API. The comparisons are the exact
case-sensitive `===` of the source, which compares against LOWERCASE
header names; `field.getD 1 []` stands for `field[1]`, whose uses are
reached only after the name checks on the inputs considered here. -/
def checkLine (expectedAccept : List Char) (cs : Checks) (line : List Char) : Checks :=
  if line == [] then cs
  else
    let field := jsSplit ": ".data line
    let f0 := field.getD 0 []
    let cs := if startsWithChars "HTTP/1.1".data f0
        && ((jsSplit " ".data f0).getD 1 [] == "101".data) then
      { cs with c0 := some true } else cs
    let cs := if f0 == "sec-websocket-accept".data
        && (field.getD 1 [] == expectedAccept) then
      { cs with c1 := some true } else cs
    let cs := if f0 == "connection".data
        && (jsTrim (field.getD 1 []) == "Upgrade".data) then
      { cs with c2 := some true } else cs
    let cs := if f0 == "upgrade".data
        && (jsTrim (field.getD 1 []) == "websocket".data) then
      { cs with c3 := some true } else cs
    cs

/-- The `checks` array after connect()'s validation loop over all
response lines. -/
def checksOf (expectedAccept : List Char) (lines : List (List Char)) : Checks :=
  lines.foldl (checkLine expectedAccept) ⟨none, none, none, none⟩

/-- The entries of the `checks` array that exist:
Array.prototype.filter visits only assigned slots and skips holes. -/
def presentChecks (cs : Checks) : List Bool :=
  [cs.c0, cs.c1, cs.c2, cs.c3].filterMap id

/-- connect()'s acceptance test,
`checks.filter((check) => !check).length === 0`. -/
def handshakeAccepted (expectedAccept : List Char) (lines : List (List Char)) : Bool :=
  ((presentChecks (checksOf expectedAccept lines)).filter (fun c => !c)).length == 0

/-- The state assignment following the acceptance test: CONNECTED on
success, CLOSED otherwise. -/
def connectOutcome (accepted : Bool) : ReadyState :=
  if accepted then ReadyState.connected else ReadyState.closed

/-- Modelled from the spec: the eight extended length bytes are the
"big-endian 64-bit" encoding of the payload length (section 4.1 of the
spec). Used only to compare the source's encoding with the spec's
words. -/
def specBigEndian8 (n : Nat) : List Nat :=
  [n / 2 ^ 56 % 256, n / 2 ^ 48 % 256, n / 2 ^ 40 % 256, n / 2 ^ 32 % 256,
    n / 2 ^ 24 % 256, n / 2 ^ 16 % 256, n / 2 ^ 8 % 256, n % 256]

/-! Helper lemmas shared by the claim theorems. -/

/-- Masking is an involution: applying the XOR loop twice restores the
payload. -/
theorem maskData_invol (key : List Nat) (i : Nat) (data : List Nat) :
    maskData key i (maskData key i data) = data := by
  induction data generalizing i with
  | nil => rfl
  | cons b rest ih =>
    simp only [maskData, ih]
    rw [Nat.xor_assoc, Nat.xor_self, Nat.xor_zero]

/-- Length of the masked payload. -/
theorem maskData_length (key : List Nat) (i : Nat) (data : List Nat) :
    (maskData key i data).length = data.length := by
  induction data generalizing i with
  | nil => rfl
  | cons b rest ih => simp [maskData, ih]

/-- The masked header for payloads of at most 125 bytes. -/
theorem headerOf_small (op len : Nat) (raw : Bool) (a b c d : Nat) (h1 : len ≤ 125) :
    headerOf op len raw true [a, b, c, d]
      = [(128 ||| op) % 256, ((if raw then 128 else 0) ||| len) % 256, a, b, c, d] := by
  unfold headerOf lenHeaderBytes payloadLenBytesOf
  rw [if_neg (by omega : ¬ 125 < len), if_pos h1]
  rfl

/-- The masked header for payloads of 126 to 65535 bytes: the masking key
overwrites the two extended-length bytes. -/
theorem headerOf_mid (op len : Nat) (raw : Bool) (a b c d : Nat)
    (h1 : 125 < len) (h2 : len ≤ 65535) :
    headerOf op len raw true [a, b, c, d]
      = [(128 ||| op) % 256, (if raw then 128 else 0) ||| 126, a, b, c, d, 0, 0] := by
  unfold headerOf lenHeaderBytes payloadLenBytesOf
  rw [if_pos h1, if_pos h2, if_neg (by omega : ¬ len ≤ 125), if_pos h2]
  rfl

/-- The masked header for payloads beyond 65535 bytes: the masking key
overwrites the first four extended-length bytes. -/
theorem headerOf_large (op len : Nat) (raw : Bool) (a b c d : Nat) (h2 : 65535 < len) :
    headerOf op len raw true [a, b, c, d]
      = [(128 ||| op) % 256, (if raw then 128 else 0) ||| 127, a, b, c, d,
        jsByte (jsShr (Int.ofNat len) 24), jsByte (jsShr (Int.ofNat len) 16),
        jsByte (jsShr (Int.ofNat len) 8), jsByte (jsShr (Int.ofNat len) 0), 0, 0, 0, 0] := by
  unfold headerOf lenHeaderBytes payloadLenBytesOf
  rw [if_pos (by omega : 125 < len), if_neg (by omega : ¬ len ≤ 65535),
    if_neg (by omega : ¬ len ≤ 125), if_neg (by omega : ¬ len ≤ 65535)]
  rfl

/-- A length-4 list is four explicit elements. -/
theorem four_elems (key : List Nat) (hk : key.length = 4) :
    ∃ a b c d, key = [a, b, c, d] := by
  match key, hk with
  | [a, b, c, d], _ => exact ⟨a, b, c, d, rfl⟩

/-- Element 0 of a cons list by getD. -/
theorem getD_zero (x : Nat) (l : List Nat) : (x :: l).getD 0 0 = x := rfl

/-- Element 1 of a cons-cons list by getD. -/
theorem getD_one (x y : Nat) (l : List Nat) : (x :: y :: l).getD 1 0 = y := rfl

/-- ToUint32 of a natural number. -/
theorem u32ofInt_ofNat (n : Nat) : u32ofInt (Int.ofNat n) = n % 2 ^ 32 := by
  unfold u32ofInt
  norm_cast

/-- Small values are fixed by the signed reinterpretation. -/
theorem s32_small (n : Nat) (h : n < 2 ^ 31) : s32 n = (n : Int) := by
  have h32 : n < 2 ^ 32 := by
    calc n < 2 ^ 31 := h
    _ ≤ 2 ^ 32 := by norm_num
  unfold s32
  rw [Nat.mod_eq_of_lt h32, if_pos h]

/-- The 32-bit left shift by 8 of a byte value. -/
theorem jsShl_byte (b : Nat) (hb : b < 256) : jsShl (Int.ofNat b) 8 = ((b * 256 : Nat) : Int) := by
  have h31 : (2 : Nat) ^ 31 = 2147483648 := by norm_num
  have h32 : (2 : Nat) ^ 32 = 4294967296 := by norm_num
  unfold jsShl
  rw [u32ofInt_ofNat, Nat.mod_eq_of_lt (by omega)]
  have hsh : (8 : Nat) % 32 = 8 := by norm_num
  rw [hsh, show (2 : Nat) ^ 8 = 256 from by norm_num]
  exact s32_small (b * 256) (by omega)

/-- The 32-bit or of a small value with zero. -/
theorem jsOr_ofNat_zero (n : Nat) (h : n < 2 ^ 31) : jsOr ((n : Nat) : Int) 0 = (n : Int) := by
  have h31 : (2 : Nat) ^ 31 = 2147483648 := by norm_num
  have h32 : (2 : Nat) ^ 32 = 4294967296 := by norm_num
  unfold jsOr
  have hz : u32ofInt 0 = 0 := by decide
  rw [hz, show ((n : Nat) : Int) = Int.ofNat n from rfl, u32ofInt_ofNat,
    Nat.mod_eq_of_lt (by omega), Nat.or_zero]
  exact s32_small n h

/-! Claim theorems. -/

/-- Claim C1. The claim states that a fragmented run is dispatched as one
message whose kind comes from the opcode of the FIRST frame of the run, so
that the frames [0x1 fin=0 "He", 0x0 fin=0 "ll", 0x0 fin=1 "o"] yield the
Text message "Hello". The source instead passes `handleFrame` the opcode
of the CURRENT (terminating, fin=1) frame, here the continuation opcode
0x0, which falls into the default branch: the loop dispatches no message
at all and performs close(INVALID_OPCODE) — one masked Close frame
carrying code 1003 (bytes [136,130,0,0,0,0,3,235] under the all-zero key)
followed by closing the transport. -/
theorem fragmented_run_dispatch_uses_last_opcode :
    listenForFrames [0, 0, 0, 0] [1, 2, 72, 101, 0, 2, 108, 108, 128, 1, 111] 11 20 0 []
        { state := ReadyState.connected, conn := true }
      = ([Act.writeBytes [136, 130, 0, 0, 0, 0, 3, 235], Act.connClose],
          { state := ReadyState.closed, conn := false })
    ∧ ∀ k p, Act.onMessage k p
        ∉ (listenForFrames [0, 0, 0, 0] [1, 2, 72, 101, 0, 2, 108, 108, 128, 1, 111] 11 20 0 []
            { state := ReadyState.connected, conn := true }).1 := by
  have h : listenForFrames [0, 0, 0, 0] [1, 2, 72, 101, 0, 2, 108, 108, 128, 1, 111] 11 20 0 []
        { state := ReadyState.connected, conn := true }
      = ([Act.writeBytes [136, 130, 0, 0, 0, 0, 3, 235], Act.connClose],
          { state := ReadyState.closed, conn := false }) := by decide
  refine ⟨h, ?_⟩
  intro k p hp
  rw [h] at hp
  simp at hp

/-- Claim C2. The claim states that the handshake negotiator accepts a
server response if and only if all four validation conditions hold. In
the source the `checks` array starts EMPTY, entries are only ever assigned
`true`, and `Array.prototype.filter` skips unassigned holes, so the
acceptance test `checks.filter((check) => !check).length === 0` succeeds
vacuously: the response "HTTP/1.1 404 Not Found", which satisfies none of
the four conditions (all slots remain holes), is accepted and the state is
set to CONNECTED. -/
theorem handshake_accepts_invalid_response :
    handshakeAccepted "s3pPLMBiTxaQ9kYGzzhZRbK+xOo=".data ["HTTP/1.1 404 Not Found".data] = true
    ∧ checksOf "s3pPLMBiTxaQ9kYGzzhZRbK+xOo=".data ["HTTP/1.1 404 Not Found".data]
        = { c0 := none, c1 := none, c2 := none, c3 := none }
    ∧ connectOutcome (handshakeAccepted "s3pPLMBiTxaQ9kYGzzhZRbK+xOo=".data
        ["HTTP/1.1 404 Not Found".data]) = ReadyState.connected := by
  refine ⟨by decide, by decide, by decide⟩

/-- Claim C3. The claim states that the 64-bit case writes "127 plus 8
big-endian length bytes" and that decode(encode(..)) is the identity for
payload lengths including 65536 and a value above 2^32. In the source both
directions use JavaScript 32-bit shifts whose counts are reduced mod 32:
the encoder writes the ToInt32 of the length TWICE (for payload length
65536 the eight bytes are [0,1,0,0,0,1,0,0], the big-endian encoding of
2^48 + 65536, not of 65536), and the decoder folds the eight bytes with a
32-bit shift, so for payload length 2^32 + 1 it reads back length 1 — the
decoded frame would keep a single payload byte and the roundtrip fails. -/
theorem long_length_encoding_diverges :
    headerOf 2 65536 false false [] = [130, 127, 0, 1, 0, 0, 0, 1, 0, 0]
    ∧ specBigEndian8 65536 = [0, 0, 0, 0, 0, 1, 0, 0]
    ∧ ([0, 1, 0, 0, 0, 1, 0, 0] : List Nat) ≠ specBigEndian8 65536
    ∧ headerOf 2 (2 ^ 32 + 1) false false [] = [130, 127, 0, 0, 0, 1, 0, 0, 0, 1]
    ∧ decodeLen (headerOf 2 (2 ^ 32 + 1) false false []) 2 127 = (1, 10)
    ∧ (1 : Int) ≠ (2 ^ 32 + 1 : Int) := by
  refine ⟨by decide, by decide, by decide, by decide, by decide, by decide⟩

/-- Claim C4. A frame whose mask bit (bit 7 of the second header byte) is
set makes the receive loop call close(PROTOCOL_ERROR) and stop decoding
the buffer, regardless of the pending fragments and the session; no
onMessage dispatch happens for that frame (close only writes the close
frame and closes the transport). -/
theorem masked_frame_rejected_protocol_error (key buffer : List Nat) (dataLen : Int)
    (fuel : Nat) (offset : Int) (msgBuf : List (List Nat)) (s : Session)
    (hoff : offset < dataLen) (hmask : byteAt buffer (offset + 1) &&& 128 = 128) :
    listenForFrames key buffer dataLen (fuel + 1) offset msgBuf s = close key PROTOCOL_ERROR s
    ∧ ∀ k p, Act.onMessage k p ∉ (close key PROTOCOL_ERROR s).1 := by
  constructor
  · simp only [listenForFrames]
    rw [if_pos hoff, hmask]
    simp
  · intro k p
    unfold close
    split_ifs <;> simp

/-- Claim C6. send writes no bytes and leaves the session unchanged when
the state is CONNECTING, CLOSING or CLOSED (whatever the payload), and
also when the payload is empty (whatever the state, in particular
CONNECTED or OPEN): the emptiness test runs before any state change. -/
theorem send_noop_outside_open_connected (key dataBytes : List Nat) (s : Session)
    (h : s.state = ReadyState.connecting ∨ s.state = ReadyState.closing
        ∨ s.state = ReadyState.closed ∨ dataBytes = []) :
    send key dataBytes s = ([], s) := by
  rcases h with h | h | h | h <;> simp [send, h]

/-- Claim C7. From CONNECTED or OPEN with an owned connection, the first
close emits exactly one Close-frame write plus one transport close and
ends CLOSED without a connection; a second close is then a strict no-op,
and in general close is a no-op whenever the state is already CLOSING or
CLOSED. -/
theorem close_idempotent (key₁ key₂ : List Nat) (c₁ c₂ : Nat) (s : Session)
    (hs : s.state = ReadyState.connected ∨ s.state = ReadyState.opened) (hc : s.conn = true) :
    close key₁ c₁ s
        = ([Act.writeBytes (frameGenerator 8 (errBytes c₁) (some true) key₁), Act.connClose],
          { state := ReadyState.closed, conn := false })
    ∧ close key₂ c₂ (close key₁ c₁ s).2 = ([], (close key₁ c₁ s).2)
    ∧ ∀ (k : List Nat) (c : Nat) (s' : Session),
        s'.state = ReadyState.closing ∨ s'.state = ReadyState.closed →
          close k c s' = ([], s') := by
  have hnoop : ∀ (k : List Nat) (c : Nat) (s' : Session),
      s'.state = ReadyState.closing ∨ s'.state = ReadyState.closed →
        close k c s' = ([], s') := by
    intro k c s' h'
    rcases h' with h' | h' <;> simp [close, h']
  have h1 : close key₁ c₁ s
      = ([Act.writeBytes (frameGenerator 8 (errBytes c₁) (some true) key₁), Act.connClose],
        { state := ReadyState.closed, conn := false }) := by
    rcases hs with h | h <;> simp [close, h, hc]
  refine ⟨h1, ?_, hnoop⟩
  rw [h1]
  exact hnoop key₂ c₂ _ (Or.inr rfl)

/-- Claim C8 counterexample. The claim states that immediately after
construction the state equals Connecting; the constructor in fact sets
readyState to CLOSED (CONNECTING is only assigned by connect()). -/
theorem initial_state_not_connecting :
    (construct "ws:".data).map Session.state = some ReadyState.closed
    ∧ ReadyState.closed ≠ ReadyState.connecting := by
  refine ⟨by decide, by decide⟩

/-- Claim C8, amended. Immediately after construction (for either valid
scheme) the state equals Closed; the first statement of connect() then sets
it to Connecting. -/
theorem initial_state_closed_connect_sets_connecting :
    construct "ws:".data = some { state := ReadyState.closed, conn := false }
    ∧ construct "wss:".data = some { state := ReadyState.closed, conn := false }
    ∧ ∀ s : Session, (connectEntry s).state = ReadyState.connecting := by
  exact ⟨by decide, by decide, fun _ => rfl⟩

/-- Claim C10 counterexample. The claim states that every Close frame with
a payload shorter than 2 bytes yields onClose with code 0; a one-byte
payload [0x03] in fact yields (3 << 8) | undefined = 768. -/
theorem short_close_payload_nonzero_code :
    handleFrame [0, 0, 0, 0] 8 [3] { state := ReadyState.connected, conn := true }
        = ([Act.onCloseCb 768], { state := ReadyState.closed, conn := true })
    ∧ (768 : Int) ≠ 0 := by
  refine ⟨by decide, by decide⟩

/-- Claim C10, amended. For a Close frame whose payload is shorter than 2
bytes the dispatcher still sets the state to Closed and invokes onClose,
with code 256 times the first payload byte: 0 for an empty payload (both
out-of-range reads coerce to 0), and 256 * b for a one-byte payload [b]
(only the missing second byte reads as 0). -/
theorem short_close_payload_code_formula (key : List Nat) (s : Session) (data : List Nat)
    (hlen : data.length < 2) (hbytes : ∀ b ∈ data, b < 256) :
    handleFrame key 8 data s
      = ([Act.onCloseCb (256 * (data.getD 0 0 : Int))], { s with state := ReadyState.closed }) := by
  have hcc : closeCode data = 256 * (data.getD 0 0 : Int) := by
    match data, hlen with
    | [], _ => decide
    | [b], _ =>
      have hb : b < 256 := hbytes b (by simp)
      show jsOr (jsShl (Int.ofNat b) 8) (Int.ofNat 0) = 256 * (b : Int)
      rw [jsShl_byte b hb, show (Int.ofNat 0) = (0 : Int) from rfl,
        jsOr_ofNat_zero (b * 256) (by
        have h31 : (2 : Nat) ^ 31 = 2147483648 := by norm_num
        omega)]
      push_cast
      ring
  simp [handleFrame, hcc]

/-- Claim C9. With the `masked` argument omitted, FrameGenerator builds an
internally inconsistent frame: the private field defaults to true, so the
frame has the 6-byte (plus length-extension) header layout with a masking
key stored at bytes 2..5, but header byte 1 takes its mask bit from the
raw (undefined, falsy) argument and is therefore clear, and the payload is
appended without XOR masking — the payload sits 4 bytes beyond where the
header says it should. -/
theorem frameGenerator_default_mask_inconsistent (op : Nat) (data key : List Nat)
    (_hd : data ≠ []) (hk : key.length = 4) :
    (frameGenerator op data none key).length
        = 6 + payloadLenBytesOf data.length + data.length
    ∧ Nat.testBit ((frameGenerator op data none key).getD 1 0) 7 = false
    ∧ ((frameGenerator op data none key).drop 2).take 4 = key
    ∧ (frameGenerator op data none key).drop (6 + payloadLenBytesOf data.length) = data := by
  obtain ⟨a, b, c, d, hkey⟩ := four_elems key hk
  subst hkey
  have hfg : frameGenerator op data none [a, b, c, d]
      = headerOf op data.length false true [a, b, c, d] ++ data := rfl
  by_cases h1 : data.length ≤ 125
  · have hp : payloadLenBytesOf data.length = 0 := by
      unfold payloadLenBytesOf
      rw [if_neg (by omega)]
    rw [hfg, headerOf_small op data.length false a b c d h1, hp]
    refine ⟨by simp; omega, ?_, rfl, ?_⟩
    · show Nat.testBit (((if false then 128 else 0) ||| data.length) % 256) 7 = false
      simp only [if_neg (by simp : ¬ False), Bool.false_eq_true, Nat.zero_or]
      rw [Nat.mod_eq_of_lt (by omega)]
      exact Nat.testBit_eq_false_of_lt (by omega)
    · show ([(128 ||| op) % 256, (0 ||| data.length) % 256, a, b, c, d] ++ data).drop 6 = data
      rfl
  · by_cases h2 : data.length ≤ 65535
    · have hp : payloadLenBytesOf data.length = 2 := by
        unfold payloadLenBytesOf
        rw [if_pos (by omega), if_pos h2]
      rw [hfg, headerOf_mid op data.length false a b c d (by omega) h2, hp]
      refine ⟨by simp; omega, ?_, rfl, rfl⟩
      simp only [List.cons_append]
      rw [getD_one]
      decide
    · have hp : payloadLenBytesOf data.length = 8 := by
        unfold payloadLenBytesOf
        rw [if_pos (by omega), if_neg h2]
      rw [hfg, headerOf_large op data.length false a b c d (by omega), hp]
      refine ⟨by simp; omega, ?_, rfl, rfl⟩
      simp only [List.cons_append]
      rw [getD_one]
      decide

/-- Claim C9 witness: the instance opcode 0x1, payload [104, 105], key
[1, 2, 3, 4]; the produced frame is [129, 2, 1, 2, 3, 4, 104, 105]. -/
theorem frameGenerator_default_mask_inconsistent_witness :
    (frameGenerator 1 [104, 105] none [1, 2, 3, 4]).length
        = 6 + payloadLenBytesOf ([104, 105] : List Nat).length + ([104, 105] : List Nat).length
    ∧ Nat.testBit ((frameGenerator 1 [104, 105] none [1, 2, 3, 4]).getD 1 0) 7 = false
    ∧ ((frameGenerator 1 [104, 105] none [1, 2, 3, 4]).drop 2).take 4 = [1, 2, 3, 4]
    ∧ (frameGenerator 1 [104, 105] none [1, 2, 3, 4]).drop
        (6 + payloadLenBytesOf ([104, 105] : List Nat).length) = [104, 105] :=
  frameGenerator_default_mask_inconsistent 1 [104, 105] [1, 2, 3, 4] (by decide) (by decide)

/-- Claim C5. A Ping frame (opcode 0x9) with payload P makes the
dispatcher perform exactly one action — writing one Pong frame — and
invoke no user callback; the written frame has opcode 0xA, its mask bit is
set, and XOR-unmasking its payload region with the frame's key restores
P exactly. -/
theorem ping_dispatch_sends_masked_pong (key data : List Nat) (s : Session)
    (hk : key.length = 4) :
    handleFrame key 9 data s = ([Act.writeBytes (frameGenerator 10 data (some true) key)], s)
    ∧ (frameGenerator 10 data (some true) key).getD 0 0 &&& 15 = 10
    ∧ Nat.testBit ((frameGenerator 10 data (some true) key).getD 1 0) 7 = true
    ∧ maskData key 0 ((frameGenerator 10 data (some true) key).drop
        (6 + payloadLenBytesOf data.length)) = data := by
  obtain ⟨a, b, c, d, hkey⟩ := four_elems key hk
  subst hkey
  have hfg : frameGenerator 10 data (some true) [a, b, c, d]
      = headerOf 10 data.length true true [a, b, c, d] ++ maskData [a, b, c, d] 0 data := rfl
  refine ⟨by simp [handleFrame], ?_, ?_, ?_⟩
  · by_cases h1 : data.length ≤ 125
    · rw [hfg, headerOf_small 10 data.length true a b c d h1]
      simp only [List.cons_append]
      rw [getD_zero]
      decide
    · by_cases h2 : data.length ≤ 65535
      · rw [hfg, headerOf_mid 10 data.length true a b c d (by omega) h2]
        simp only [List.cons_append]
        rw [getD_zero]
        decide
      · rw [hfg, headerOf_large 10 data.length true a b c d (by omega)]
        simp only [List.cons_append]
        rw [getD_zero]
        decide
  · by_cases h1 : data.length ≤ 125
    · rw [hfg, headerOf_small 10 data.length true a b c d h1]
      show Nat.testBit (((if true then 128 else 0) ||| data.length) % 256) 7 = true
      have hlt : 128 ||| data.length < 256 := by
        have h8 : (2 : Nat) ^ 8 = 256 := by norm_num
        exact h8 ▸ Nat.or_lt_two_pow (by norm_num) (by omega)
      simp only [if_pos trivial]
      rw [Nat.mod_eq_of_lt hlt, Nat.testBit_lor]
      simp [show Nat.testBit 128 7 = true from by decide]
    · by_cases h2 : data.length ≤ 65535
      · rw [hfg, headerOf_mid 10 data.length true a b c d (by omega) h2]
        simp only [List.cons_append]
        rw [getD_one]
        decide
      · rw [hfg, headerOf_large 10 data.length true a b c d (by omega)]
        simp only [List.cons_append]
        rw [getD_one]
        decide
  · by_cases h1 : data.length ≤ 125
    · have hp : payloadLenBytesOf data.length = 0 := by
        unfold payloadLenBytesOf
        rw [if_neg (by omega)]
      rw [hfg, headerOf_small 10 data.length true a b c d h1, hp]
      exact maskData_invol [a, b, c, d] 0 data
    · by_cases h2 : data.length ≤ 65535
      · have hp : payloadLenBytesOf data.length = 2 := by
          unfold payloadLenBytesOf
          rw [if_pos (by omega), if_pos h2]
        rw [hfg, headerOf_mid 10 data.length true a b c d (by omega) h2, hp]
        exact maskData_invol [a, b, c, d] 0 data
      · have hp : payloadLenBytesOf data.length = 8 := by
          unfold payloadLenBytesOf
          rw [if_pos (by omega), if_neg h2]
        rw [hfg, headerOf_large 10 data.length true a b c d (by omega), hp]
        exact maskData_invol [a, b, c, d] 0 data

/-- Claim C5 witness: ping payload "abc" = [97, 98, 99] with key
[1, 2, 3, 4]; the dispatcher emits exactly the one Pong write. -/
theorem ping_dispatch_sends_masked_pong_witness :
    handleFrame [1, 2, 3, 4] 9 [97, 98, 99] { state := ReadyState.connected, conn := true }
        = ([Act.writeBytes (frameGenerator 10 [97, 98, 99] (some true) [1, 2, 3, 4])],
          { state := ReadyState.connected, conn := true })
    ∧ (frameGenerator 10 [97, 98, 99] (some true) [1, 2, 3, 4]).getD 0 0 &&& 15 = 10
    ∧ Nat.testBit ((frameGenerator 10 [97, 98, 99] (some true) [1, 2, 3, 4]).getD 1 0) 7 = true
    ∧ maskData [1, 2, 3, 4] 0 ((frameGenerator 10 [97, 98, 99] (some true) [1, 2, 3, 4]).drop
        (6 + payloadLenBytesOf ([97, 98, 99] : List Nat).length)) = [97, 98, 99] :=
  ping_dispatch_sends_masked_pong [1, 2, 3, 4] [97, 98, 99]
    { state := ReadyState.connected, conn := true } (by decide)

/-- Claim C4 witness: a two-byte region whose second byte 131 has the mask
bit set; the loop performs close(PROTOCOL_ERROR) and nothing else. -/
theorem masked_frame_rejected_protocol_error_witness :
    listenForFrames [0, 0, 0, 0] [129, 131] 2 1 0 []
        { state := ReadyState.connected, conn := true }
      = close [0, 0, 0, 0] PROTOCOL_ERROR { state := ReadyState.connected, conn := true }
    ∧ ∀ k p, Act.onMessage k p
        ∉ (close [0, 0, 0, 0] PROTOCOL_ERROR { state := ReadyState.connected, conn := true }).1 :=
  masked_frame_rejected_protocol_error [0, 0, 0, 0] [129, 131] 2 0 0 []
    { state := ReadyState.connected, conn := true } (by decide) (by decide)

/-- Claim C6 witness: send in the CLOSING state writes nothing and leaves
the session unchanged. -/
theorem send_noop_outside_open_connected_witness :
    send [1, 2, 3, 4] [104, 105] { state := ReadyState.closing, conn := true }
      = ([], { state := ReadyState.closing, conn := true }) :=
  send_noop_outside_open_connected [1, 2, 3, 4] [104, 105]
    { state := ReadyState.closing, conn := true } (Or.inr (Or.inl rfl))

/-- Claim C7 witness: two successive close(1000) calls from CONNECTED with
a connection; the first produces the single Close-frame write (bytes
[136, 130, 0, 0, 0, 0, 3, 232] under the all-zero key) plus the transport
close, the second is a no-op. -/
theorem close_idempotent_witness :
    close [0, 0, 0, 0] 1000 { state := ReadyState.connected, conn := true }
        = ([Act.writeBytes [136, 130, 0, 0, 0, 0, 3, 232], Act.connClose],
          { state := ReadyState.closed, conn := false })
    ∧ close [0, 0, 0, 0] 1000 { state := ReadyState.closed, conn := false }
        = ([], { state := ReadyState.closed, conn := false }) := by
  have h := close_idempotent [0, 0, 0, 0] [0, 0, 0, 0] 1000 1000
    { state := ReadyState.connected, conn := true } (Or.inl rfl) rfl
  exact ⟨by rw [h.1]; decide, h.2.2 [0, 0, 0, 0] 1000 _ (Or.inr rfl)⟩

/-- Claim C10 witness (for the amended claim): an empty Close payload
yields onClose(0) with the state set to CLOSED. -/
theorem short_close_payload_code_formula_witness :
    handleFrame [9, 9, 9, 9] 8 [] { state := ReadyState.connected, conn := true }
      = ([Act.onCloseCb (256 * (([] : List Nat).getD 0 0 : Int))],
        { state := ReadyState.closed, conn := true }) :=
  short_close_payload_code_formula [9, 9, 9, 9]
    { state := ReadyState.connected, conn := true } [] (by decide) (by intro b hb; simp at hb)

end WebSpocket
